import Mathlib

/-!
Verification of the Argo-workflows acceptance-test harness
(`python_test_interface.py`) against its natural-language specification.

The Python source is shallowly embedded: dictionaries become structures with
`Option` fields (a missing key and an explicit `null` both map to `none`,
matching `dict.get`), Python truthiness on strings/lists is modelled
explicitly, exceptions become `Except String`, and the unbounded recursion of
the subtree search is modelled with an explicit depth budget (`Nat` fuel)
whose exhaustion (`Option.none` at the outer layer) corresponds to a Python
`RecursionError`.  Machine integers do not occur (Python ints are unbounded),
so durations are `Int`.
-/

/-! ### Python-style character and string primitives

The harness manipulates strings with `strip`, `lower`, `endswith`, slicing,
`in` (substring), and `int()`.  These are modelled over `List Char`
(`String.data`), restricted to ASCII, which covers every string the harness
builds or compares.
-/

deriving instance DecidableEq for Except

/-- Whitespace stripped by Python `str.strip` / `int()` (ASCII subset). -/
def isPySpace (c : Char) : Bool :=
  c = ' ' || c = '\t' || c = '\n' || c = '\r' || c = '\x0b' || c = '\x0c'

/-- Python `str.strip`: drop leading and trailing whitespace. -/
def stripChars (l : List Char) : List Char :=
  ((l.dropWhile isPySpace).reverse.dropWhile isPySpace).reverse

/-- Python `str.lower` on one character (ASCII subset). -/
def lowerChar (c : Char) : Char :=
  if 'A' ≤ c ∧ c ≤ 'Z' then Char.ofNat (c.toNat + 32) else c

/-- Python `str.lower` (ASCII subset). -/
def toLowerL (l : List Char) : List Char := l.map lowerChar

/-- Test `startsWithL l p`: `l` begins with pattern `p`. -/
def startsWithL : List Char → List Char → Bool
  | _, [] => true
  | [], _ :: _ => false
  | c :: cs, p :: ps => (c == p) && startsWithL cs ps

/-- Python `str.endswith`, via the reversed lists. -/
def endsWithL (l p : List Char) : Bool :=
  startsWithL l.reverse p.reverse

/-- Python slice `s[:-n]`: drop the last `n` characters (empty if `n ≥ len`). -/
def dropRightL (l : List Char) (n : Nat) : List Char :=
  l.take (l.length - n)

/-- Test `containsL pat l`: `pat` occurs as a contiguous sublist of `l`
(Python `pat in s`). -/
def containsL (pat : List Char) : List Char → Bool
  | [] => startsWithL [] pat
  | c :: cs => startsWithL (c :: cs) pat || containsL pat cs

/-- Python substring test `pat in s`. -/
def strContains (s pat : String) : Bool := containsL pat.data s.data

/-- Python `s.startswith(p)`. -/
def strStartsWith (s p : String) : Bool := startsWithL s.data p.data

/-- Python slice `s[n:]` (by character count). -/
def strDrop (s : String) (n : Nat) : String := ⟨s.data.drop n⟩

/-- ASCII decimal digit (the digits accepted by Python `int()`;
non-ASCII decimal digits are out of scope). -/
def isDigitChar (c : Char) : Bool :=
  c = '0' || c = '1' || c = '2' || c = '3' || c = '4' ||
  c = '5' || c = '6' || c = '7' || c = '8' || c = '9'

/-- Python `int()` digit grammar after the first digit:
`(digit | \x27_\x27 digit)*` — an underscore must be followed by a digit. -/
def pyDigitsRest : List Char → Bool
  | [] => true
  | c :: cs =>
    if c = '_' then
      match cs with
      | [] => false
      | c2 :: cs2 => isDigitChar c2 && pyDigitsRest cs2
    else
      isDigitChar c && pyDigitsRest cs

/-- Python `int()` digit grammar: `digit (digit | \x27_\x27 digit)*`. -/
def pyDigitsOk : List Char → Bool
  | [] => false
  | c :: cs => isDigitChar c && pyDigitsRest cs

/-- Decimal value of a digit list. -/
def digitsToNat (l : List Char) : Nat :=
  l.foldl (fun a c => 10 * a + (c.toNat - 48)) 0

/-- Python `int(s)`: strip whitespace, optional sign, digits with
underscores between them; anything else is a `ValueError`. -/
def pyParseInt (s : String) : Except String Int :=
  let l := stripChars s.data
  let sb : Int × List Char :=
    match l with
    | c :: rest =>
      if c = '+' then (1, rest) else if c = '-' then (-1, rest) else (1, l)
    | [] => (1, l)
  if pyDigitsOk sb.2 then
    .ok (sb.1 * (digitsToNat (sb.2.filter (fun c => c != '_')) : Int))
  else
    .error ("invalid literal for int() with base 10: " ++ s)

/-- Python truthiness of an optional string: `None` and `""` are falsy. -/
def truthy : Option String → Option String
  | none => none
  | some s => if s = "" then none else some s

/-- Python `x or []` on an optional list (`None` and `[]` both give `[]`). -/
def pyList {α : Type} (o : Option (List α)) : List α := o.getD []

/-- How Python prints an optional string inside an f-string:
`None` or the bare text. -/
def pyShow : Option String → String
  | none => "None"
  | some s => s

/-! ### `parse_duration_to_seconds` (source lines 19–29)

```python
def parse_duration_to_seconds(s: str) -> int:
    s = str(s).strip().lower()
    if s.endswith("ms"):
        return max(1, int(int(s[:-2]) / 1000))
    if s.endswith("s"):
        return int(s[:-1])
    if s.endswith("m"):
        return int(s[:-1]) * 60
    if s.endswith("h"):
        return int(s[:-1]) * 3600
    return int(s)
```

`int(x / 1000)` divides by a float and truncates toward zero; it is modelled
as exact truncation (`Int.div`), which agrees with the float computation for
all |x| < 2^52. -/
def parse_duration_to_seconds (s : String) : Except String Int :=
  let t : List Char := toLowerL (stripChars s.data)
  if endsWithL t ['m', 's'] then
    (pyParseInt ⟨dropRightL t 2⟩).map (fun n => max 1 (Int.tdiv n 1000))
  else if endsWithL t ['s'] then
    pyParseInt ⟨dropRightL t 1⟩
  else if endsWithL t ['m'] then
    (pyParseInt ⟨dropRightL t 1⟩).map (fun n => n * 60)
  else if endsWithL t ['h'] then
    (pyParseInt ⟨dropRightL t 1⟩).map (fun n => n * 3600)
  else
    pyParseInt ⟨t⟩

example : parse_duration_to_seconds "1500ms" = .ok 1 := by decide
example : parse_duration_to_seconds "5s" = .ok 5 := by decide
example : parse_duration_to_seconds "3m" = .ok 180 := by decide
example : parse_duration_to_seconds "2h" = .ok 7200 := by decide
example : parse_duration_to_seconds "42" = .ok 42 := by decide
example : parse_duration_to_seconds "10m" = .ok 600 := by decide
example : parse_duration_to_seconds " 500MS " = .ok 1 := by decide
example : (parse_duration_to_seconds "xs").isOk = false := by decide

/-! ### Scenario model (source lines 33–79)

A YAML scenario document becomes `ScenarioData`; a missing key and an
explicit `null` both give `none`, matching `dict.get`.  The loader
(`load_scenarios_from_dir`) globs a directory and parses every file; the glob
and YAML parse are external collaborators, so the embedded `parseScenario`
models the per-document body of the loop (lines 57–77), taking the scenario
path and parsed document.  `(path.parent / raw).resolve()` is modelled as
textual path join (normalisation does not affect any claim). -/

/-- An inline workflow manifest: an opaque structured document. -/
structure Manifest where
  raw : String
deriving DecidableEq, Repr

structure LogsSpec where
  contains : Option (List String) := none
deriving DecidableEq, Repr

structure NodeSelector where
  displayName : Option String := none
deriving DecidableEq, Repr

structure NodeExpect where
  selector : Option NodeSelector := none
  displayName : Option String := none
  phase : Option String := none
  logs : Option LogsSpec := none
deriving DecidableEq, Repr

structure ExpectSpec where
  workflowPhase : Option String := none
  maxDuration : Option String := none
  nodes : Option (List NodeExpect) := none
deriving DecidableEq, Repr

instance : Inhabited ExpectSpec := ⟨{}⟩

/-- A parsed scenario YAML document (`data` in the loader loop). -/
structure ScenarioData where
  name : Option String := none
  description : Option String := none
  tags : Option (List String) := none
  timeout : Option String := none
  ns : Option String := none        -- `namespace` key (Lean keyword)
  expect : Option ExpectSpec := none
  workflow : Option Manifest := none
  workflowFile : Option String := none
deriving DecidableEq, Repr

structure TestScenario where
  path : String
  name : String
  description : String
  tags : List String
  timeout_seconds : Int
  ns : String
  expect : ExpectSpec
  workflow_inline : Option Manifest := none
  workflow_file : Option String := none
deriving DecidableEq, Repr

/-- Textual model of `(path.parent / raw).resolve()`. -/
def resolveRelative (path raw : String) : String :=
  let parent : List Char := dropRightL path.data ((path.data.reverse.takeWhile (fun c => c != '/')).length)
  ⟨parent⟩ ++ raw

/-- Body of the loader loop for one scenario document (source lines 57–77).

```python
wf_inline = data.get("workflow")
wf_file_raw = data.get("workflowFile")
wf_file = (path.parent / wf_file_raw).resolve() if wf_file_raw else None
if (wf_inline is None) == (wf_file is None):
    raise ValueError(f"{path}: define exactly one of workflow OR workflowFile")
scenarios.append(TestScenario(path=path, name=data["name"], ...))
```

`data["name"]` raises `KeyError` when absent; the `TestScenario` keyword
arguments are evaluated in source order, so that `KeyError` precedes the
timeout parse. -/
def parseScenario (path : String) (data : ScenarioData) : Except String TestScenario :=
  let wfInline := data.workflow
  let wfFile : Option String :=
    match truthy data.workflowFile with
    | some raw => some (resolveRelative path raw)
    | none => none
  if (wfInline.isNone == wfFile.isNone) then
    .error (path ++ ": define exactly one of workflow OR workflowFile")
  else
    match data.name with
    | none => .error "KeyError: \x27name\x27"
    | some nm =>
      match parse_duration_to_seconds ((data.timeout).getD "10m") with
      | .error e => .error e
      | .ok t =>
        .ok { path := path
              name := nm
              description := data.description.getD ""
              tags := data.tags.getD []
              timeout_seconds := t
              ns := data.ns.getD "argo"
              expect := data.expect.getD {}
              workflow_inline := wfInline
              workflow_file := wfFile }

/-! ### `wait_workflow` (source lines 112–128)

```python
deadline = time.time() + timeout_seconds
last_phase = None
while time.time() < deadline:
    wf = get_workflow(custom, namespace, name)
    phase = ((wf.get("status") or {}).get("phase")) or "Unknown"
    if phase != last_phase:
        print(f"    phase={phase}")
        last_phase = phase
    if phase in ("Succeeded", "Failed", "Error"):
        return wf
    time.sleep(2)
raise TimeoutError(f"Workflow {namespace}/{name} did not finish within {timeout_seconds}s")
```

The fetch is modelled as a stream `getPhase : Nat → Option String` giving the
`status.phase` field of the `i`-th poll (fetch latency zero).  Poll `i`
happens at time `2*i`, so the loop runs while `2*i < timeoutSeconds`, i.e.
exactly `(timeoutSeconds + 1) / 2` iterations. -/

/-- The polling loop; `.error ()` is deadline expiry. -/
def waitLoop (getPhase : Nat → Option String) : Nat → Nat → Except Unit String
  | _, 0 => .error ()
  | i, n + 1 =>
    let phase := (truthy (getPhase i)).getD "Unknown"
    if phase = "Succeeded" || phase = "Failed" || phase = "Error" then
      .ok phase
    else
      waitLoop getPhase (i + 1) n

/-- Model of `wait_workflow`, returning the terminal phase of the returned workflow
snapshot, or the `TimeoutError` message. -/
def wait_workflow (getPhase : Nat → Option String) (ns name : String)
    (timeoutSeconds : Nat) : Except String String :=
  match waitLoop getPhase 0 ((timeoutSeconds + 1) / 2) with
  | .ok phase => .ok phase
  | .error () =>
    .error ("Workflow " ++ ns ++ "/" ++ name ++ " did not finish within "
            ++ toString timeoutSeconds ++ "s")

example : wait_workflow (fun _ => some "Running") "argo" "wf" 4
    = .error "Workflow argo/wf did not finish within 4s" := by decide
example : wait_workflow (fun i => if i = 0 then some "Running" else some "Succeeded")
    "argo" "wf" 600 = .ok "Succeeded" := by decide

/-! ### `read_pod_logs` (source lines 131–181)

The Kubernetes API is an external collaborator, modelled as the log fetch
`fetchLog : container-name → Except e log-text` for a fixed pod (a thrown
`ApiException` is `.error`), and `readPod : ns → pod → Except e (inits × containers)`
for the pod lookup. -/

/-- Model of `_order` (source lines 145–148): move a container literally named
`main` to the front, keeping the rest in order.

```python
def _order(names: list[str]) -> list[str]:
    if "main" in names:
        return ["main"] + [n for n in names if n != "main"]
    return names
``` -/
def orderMainFirst (names : List String) : List String :=
  if names.contains "main" then
    "main" :: names.filter (fun n => n != "main")
  else
    names

/-- One fetched log, or the placeholder the source substitutes when the
per-container fetch raises (`initWord` is `"init "` for init containers,
`""` for regular ones). -/
def fetchedLog (fetchLog : String → Except String String) (initWord cname : String) : String :=
  match fetchLog cname with
  | .ok log => log
  | .error e => "<failed to read " ++ initWord ++ "container logs: " ++ e ++ ">"

/-- The chunk list built by `read_pod_logs`: init-container sections (in
`_order`ed init order), then regular-container sections (in `_order`ed
order), each prefixed with its header. -/
def readPodLogsChunks (fetchLog : String → Except String String)
    (init_containers containers : List String) : List String :=
  let ordered_containers := orderMainFirst containers
  let ordered_inits := orderMainFirst init_containers
  (ordered_inits.map (fun cname =>
      " --- initContainer: " ++ cname ++ " --- " ++ fetchedLog fetchLog "init " cname))
  ++ (ordered_containers.map (fun cname =>
      " --- container: " ++ cname ++ " --- " ++ fetchedLog fetchLog "" cname))

/-- Python `"".join(chunks).lstrip()`. -/
def joinLstrip (chunks : List String) : String :=
  ⟨(chunks.foldr (fun a b => a ++ b) "").data.dropWhile isPySpace⟩

/-- The pod-reading Kubernetes surface used by the harness. -/
structure CoreV1Api where
  /-- Field for `read_namespaced_pod`, reduced to the two container-name lists
  `(init_containers, containers)`; `.error` is a raised `ApiException`
  (uncaught in the source). -/
  readPod : String → String → Except String (List String × List String)
  /-- Field for `read_namespaced_pod_log` for (namespace, pod, container). -/
  readLog : String → String → String → Except String String

/-- Model of `read_pod_logs`: aggregate logs of every container of a pod. -/
def read_pod_logs (core : CoreV1Api) (ns pod_name : String) : Except String String :=
  match core.readPod ns pod_name with
  | .error e => .error e
  | .ok (init_containers, containers) =>
    .ok (joinLstrip (readPodLogsChunks (core.readLog ns pod_name) init_containers containers))

example : orderMainFirst ["wait", "main", "sidecar"] = ["main", "wait", "sidecar"] := by decide
example : orderMainFirst ["wait", "sidecar"] = ["wait", "sidecar"] := by decide

/-! ### Node tree and pod-name resolution (source lines 184–258) -/

/-- One record of `status.nodes` (a duck-typed dict in the source). -/
structure NodeRec where
  displayName : Option String := none
  type : Option String := none
  phase : Option String := none
  podName : Option String := none
  templateName : Option String := none
  children : Option (List String) := none
deriving DecidableEq, Repr

/-- Fallback record: `nodes.get(node_id) or` an empty dict falls back to the empty record. -/
def emptyNode : NodeRec := {}

/-- Type of `status.nodes`: mapping from node id to record (insertion-ordered,
unique keys). -/
def NodeMap : Type := List (String × NodeRec)

/-- Python `nodes.get(node_id)`. -/
def lookupNode (nodes : NodeMap) (node_id : String) : Option NodeRec :=
  match nodes with
  | [] => none
  | (k, v) :: rest => if k = node_id then some v else lookupNode rest node_id

/-- Model of `_nodes_with_display_name` (source lines 184–185). -/
def nodesWithDisplayName (nodes : NodeMap) (display_name : String) : List String :=
  (nodes.filter (fun p => p.2.displayName == some display_name)).map (fun p => p.1)

/-- Model of `_derive_pod_name_from_pod_node` (source lines 188–205):

```python
if not template_name: return None
prefix = wf_name + "-"
if not node_id.startswith(prefix): return None
suffix = node_id[len(prefix):]
if not suffix: return None
return f"{wf_name}-{template_name}-{suffix}"
``` -/
def derivePodNameFromPodNode (node_id wf_name : String)
    (template_name : Option String) : Option String :=
  match truthy template_name with
  | none => none
  | some t =>
    let pre := wf_name ++ "-"
    if strStartsWith node_id pre then
      let suffix := strDrop node_id pre.length
      if suffix = "" then none
      else some (wf_name ++ "-" ++ t ++ "-" ++ suffix)
    else none

/-- Model of `_pod_name_from_node` (source lines 208–219): explicit truthy `podName`
first, else the derivation for `type == "Pod"` nodes. -/
def podNameFromNode (nodes : NodeMap) (node_id wf_name : String) : Option String :=
  let n := (lookupNode nodes node_id).getD emptyNode
  match truthy n.podName with
  | some p => some p
  | none =>
    if n.type == some "Pod" then
      derivePodNameFromPodNode node_id wf_name n.templateName
    else
      none

/-- Model of `_find_podname_in_subtree` (source lines 222–232): depth-first search,
direct hit first, then the children in declared order with early return on
the first truthy result.

```python
direct = _pod_name_from_node(nodes, node_id, wf_name)
if direct: return direct
n = nodes.get(node_id) or {}
for child_id in n.get("children") or []:
    found = _find_podname_in_subtree(nodes, child_id, wf_name)
    if found: return found
return None
```

The Python recursion is unbounded and tracks no visited set; `fuel` is the
remaining recursion depth and the outer `none` models the `RecursionError`
raised when every finite depth budget is exhausted. -/
def findPodnameInSubtree (nodes : NodeMap) (wf_name : String) :
    Nat → String → Option (Option String)
  | 0, _ => none
  | fuel + 1, node_id =>
    match truthy (podNameFromNode nodes node_id wf_name) with
    | some direct => some (some direct)
    | none =>
      let n := (lookupNode nodes node_id).getD emptyNode
      (pyList n.children).foldl
        (fun acc child_id =>
          match acc with
          | none => none
          | some (some found) => some (some found)
          | some none => findPodnameInSubtree nodes wf_name fuel child_id)
        (some none)

/-- Whether the subtree search returns at all (at some finite recursion
depth) on the given input. -/
def FindTerminates (nodes : NodeMap) (wf_name node_id : String) : Prop :=
  ∃ fuel, findPodnameInSubtree nodes wf_name fuel node_id ≠ none

/-- Lexicographic (code-point) string order, as Python `sorted` uses. -/
def lexLe : List Char → List Char → Bool
  | [], _ => true
  | _ :: _, [] => false
  | a :: as, b :: bs => if a = b then lexLe as bs else decide (a.toNat < b.toNat)

def strLe (a b : String) : Bool := lexLe a.data b.data

def insertSorted (x : String) : List String → List String
  | [] => [x]
  | y :: ys => if strLe x y then x :: y :: ys else y :: insertSorted x ys

/-- Python `sorted` on strings (insertion sort; same result as timsort for a
total order). -/
def sortStrings (l : List String) : List String := l.foldr insertSorted []

/-- Collapse adjacent duplicates of a sorted list. -/
def removeAdjDups : List String → List String
  | [] => []
  | [x] => [x]
  | x :: y :: rest =>
    if x = y then removeAdjDups (y :: rest) else x :: removeAdjDups (y :: rest)

/-- Python `sorted(set(l))`. -/
def sortedUnique (l : List String) : List String := removeAdjDups (sortStrings l)

/-- Python `repr` of a list of strings, as an f-string prints it:
`[\x27a\x27, \x27b\x27]`. -/
def pyReprStrList (l : List String) : String :=
  "[" ++ String.intercalate ", " (l.map (fun s => "\x27" ++ s ++ "\x27")) ++ "]"

/-- Python `repr` of a list of optional strings (`None` unquoted). -/
def pyReprOptStrList (l : List (Option String)) : String :=
  "[" ++ String.intercalate ", "
    (l.map (fun o => match o with
      | none => "None"
      | some s => "\x27" ++ s ++ "\x27")) ++ "]"

/-- Model of the sample list `sorted(...)` of display names
(source line 238). -/
def availableDisplayNames (nodes : NodeMap) : List String :=
  sortedUnique (nodes.filterMap (fun p => truthy p.2.displayName))

/-- One debug line of the unresolvable-pod error (source lines 252–255). -/
def nodeDebugLine (nodes : NodeMap) (node_id : String) : String :=
  let n := (lookupNode nodes node_id).getD emptyNode
  "id=" ++ node_id ++ " type=" ++ pyShow n.type
    ++ " templateName=" ++ pyShow n.templateName
    ++ " phase=" ++ pyShow n.phase
    ++ " children=" ++ toString (pyList n.children).length

/-- The candidate-root loop of `resolve_pod_name` (source lines 244–247):
first truthy subtree hit wins; outer `none` propagates divergence of a
subtree search. -/
def resolveLoop (nodes : NodeMap) (wf_name : String) (fuel : Nat) :
    List String → Option (Option String)
  | [] => some none
  | node_id :: rest =>
    match findPodnameInSubtree nodes wf_name fuel node_id with
    | none => none
    | some r =>
      match truthy r with
      | some pod => some (some pod)
      | none => resolveLoop nodes wf_name fuel rest

/-- Model of `resolve_pod_name` (source lines 235–258).  Result `none` models the
search not returning (RecursionError); `some (.error m)` a raised
`AssertionError m`; `some (.ok pod)` the resolved pod name. -/
def resolve_pod_name (nodes : NodeMap) (wf_name display_name : String)
    (fuel : Nat) : Option (Except String String) :=
  let start_ids := nodesWithDisplayName nodes display_name
  if start_ids.isEmpty then
    some (.error ("Node \x27" ++ display_name ++ "\x27 not found in status.nodes. "
      ++ "Available displayNames (sample): "
      ++ pyReprStrList ((availableDisplayNames nodes).take 30)))
  else
    match resolveLoop nodes wf_name fuel start_ids with
    | none => none
    | some (some pod) => some (.ok pod)
    | some none =>
      some (.error ("Node \x27" ++ display_name
        ++ "\x27 found, but podName not resolvable via children.\n  - "
        ++ String.intercalate "\n  - " (start_ids.map (nodeDebugLine nodes))))

example :
    resolve_pod_name
      [("wf-abc", { displayName := some "step1", type := some "Pod",
                    templateName := some "run", children := some [] })]
      "wf" "step1" 100 = some (.ok "wf-run-abc") := by decide

/-! ### Node expectations in `assert_expectations` (source lines 282–338)

`assert_expectations` checks workflow phase, then duration, then the node
expectations.  The claims target the node-expectation loop (lines 289–338),
embedded here; phases and durations are checked before it and short-circuit
on failure. -/

/-- The `by_display` index (source lines 290–294): all node records sharing
a truthy displayName, in map insertion order. -/
def byDisplay (nodes : NodeMap) (dn : String) : List NodeRec :=
  (nodes.map (fun p => p.2)).filter
    (fun n => truthy n.displayName == some dn)

/-- Model of `sorted(by_display.keys())` (source line 303): the truthy display names
present, sorted (index keys are unique). -/
def byDisplayKeys (nodes : NodeMap) : List String :=
  sortedUnique (nodes.filterMap (fun p => truthy p.2.displayName))

/-- The needle loop of the logs check (source lines 334–338): first missing
substring raises. -/
def checkNeedles (dn logs : String) : List String → Except String Unit
  | [] => .ok ()
  | needle :: rest =>
    if strContains logs needle then
      checkNeedles dn logs rest
    else
      .error ("Node \x27" ++ dn ++ "\x27: expected logs to contain \x27" ++ needle
        ++ "\x27, but not found.\n--- logs ---\n" ++ logs)

/-- First truthy `podName` among the same-displayName nodes
(source lines 321–325). -/
def firstTruthyPodName (recs : List NodeRec) : Option String :=
  match recs with
  | [] => none
  | r :: rest =>
    match truthy r.podName with
    | some p => some p
    | none => firstTruthyPodName rest

/-- The logs check of one node-expectation entry (source lines 317–338):
pod name directly from the index if any record carries one, else via
`resolve_pod_name`; then aggregate logs and check every needle. -/
def checkNodeEntryLogs (core : CoreV1Api) (nodes : NodeMap) (wf_name wf_ns : String)
    (fuel : Nat) (n : NodeExpect) (dn : String) : Option (Except String Unit) :=
  let contains := pyList (n.logs.getD {}).contains
  if contains.isEmpty then
    some (.ok ())
  else
    let podFromIndex := firstTruthyPodName (byDisplay nodes dn)
    let pod? : Option (Except String String) :=
      match podFromIndex with
      | some p => some (.ok p)
      | none => resolve_pod_name nodes wf_name dn fuel
    match pod? with
    | none => none
    | some (.error e) => some (.error e)
    | some (.ok pod_name) =>
      match read_pod_logs core wf_ns pod_name with
      | .error e => some (.error e)
      | .ok logs => some (checkNeedles dn logs contains)

/-- The selected display name of one entry (source lines 297–299):
`dn = (n.get("selector") or {}).get("displayName") or n.get("displayName")`,
checked for truthiness (`if not dn`). -/
def entryDisplayName (n : NodeExpect) : Option String :=
  truthy (match truthy ((n.selector.getD {}).displayName) with
          | some d => some d
          | none => n.displayName)

/-- One iteration of the node-expectation loop (source lines 296–338).
`none` models a run that does not return (divergent `resolve_pod_name`);
`some (.error m)` a raised `AssertionError`/`ApiException`. -/
def checkNodeEntry (core : CoreV1Api) (nodes : NodeMap) (wf_name wf_ns : String)
    (fuel : Nat) (n : NodeExpect) : Option (Except String Unit) :=
  match entryDisplayName n with
  | none => some (.error "Node expect entry missing displayName (use nodes[].selector.displayName)")
  | some dn =>
    if (byDisplay nodes dn).isEmpty then
      some (.error ("Node \x27" ++ dn ++ "\x27 not found in workflow status.nodes. "
        ++ "Available displayNames (sample): "
        ++ pyReprStrList ((byDisplayKeys nodes).take 30)))
    else
      -- Phase check: ok if any node with this displayName has the phase.
      match truthy n.phase with
      | some exp_node_phase =>
        let phases := (byDisplay nodes dn).map (fun x => x.phase)
        if (some exp_node_phase) ∈ phases then
          checkNodeEntryLogs core nodes wf_name wf_ns fuel n dn
        else
          some (.error ("Node \x27" ++ dn ++ "\x27: expected phase=" ++ exp_node_phase
            ++ ", got phases=" ++ pyReprOptStrList phases))
      | none => checkNodeEntryLogs core nodes wf_name wf_ns fuel n dn

/-- The node-expectation loop over all entries, in declared order
(short-circuit on the first failure). -/
def checkNodeExpectations (core : CoreV1Api) (nodes : NodeMap)
    (wf_name wf_ns : String) (fuel : Nat) :
    List NodeExpect → Option (Except String Unit)
  | [] => some (.ok ())
  | n :: rest =>
    match checkNodeEntry core nodes wf_name wf_ns fuel n with
    | none => none
    | some (.error e) => some (.error e)
    | some (.ok ()) => checkNodeExpectations core nodes wf_name wf_ns fuel rest

/-! ### Runner and exit code (source lines 342–409)

`run_one_scenario` performs I/O end to end; at the `main` boundary it is an
opaque effect `runOne : TestScenario → Except String String` (`.ok wf_name`
on success; `.error e` for any raised `Exception e` — the bare
`except Exception` on line 400 converts every stage\x27s error).  `main`\x27s
scenario loop prints one result line per scenario and tallies. -/

/-- The result line printed for one scenario (source lines 398 and 401). -/
def scenarioLine (runOne : TestScenario → Except String String)
    (s : TestScenario) : String :=
  match runOne s with
  | .ok wf_name => "✅ PASSED: " ++ s.path ++ " (wf=" ++ wf_name ++ ")"
  | .error e => "❌ FAILED: " ++ s.path ++ ": " ++ e

/-- All result lines, in scenario order (the loop never aborts early). -/
def mainLines (runOne : TestScenario → Except String String)
    (scenarios : List TestScenario) : List String :=
  scenarios.map (scenarioLine runOne)

/-- The `passed`/`failed` tally of the loop (source lines 392–402). -/
def mainTally (runOne : TestScenario → Except String String)
    (scenarios : List TestScenario) : Nat × Nat :=
  scenarios.foldl
    (fun pf s =>
      match runOne s with
      | .ok _ => (pf.1 + 1, pf.2)
      | .error _ => (pf.1, pf.2 + 1))
    (0, 0)

/-- The process exit code of `main` (source lines 380–381 and 408–409):
`SystemExit("No scenarios matched filters")` exits 1 when nothing is
selected, `SystemExit(1)` when any scenario failed, and falling off the end
exits 0. -/
def mainExitCode (runOne : TestScenario → Except String String)
    (scenarios : List TestScenario) : Nat :=
  if scenarios.isEmpty then 1
  else if (mainTally runOne scenarios).2 ≠ 0 then 1
  else 0

/-! ### Character-level helper lemmas -/

theorem digit_cases {c : Char} (h : isDigitChar c = true) :
    c = '0' ∨ c = '1' ∨ c = '2' ∨ c = '3' ∨ c = '4' ∨
    c = '5' ∨ c = '6' ∨ c = '7' ∨ c = '8' ∨ c = '9' := by
  simp [isDigitChar] at h
  tauto

theorem digit_ne_of {c d : Char} (h : isDigitChar c = true)
    (hd : isDigitChar d = false) : c ≠ d := by
  intro he
  rw [he, hd] at h
  cases h

theorem digit_not_space {c : Char} (h : isDigitChar c = true) :
    isPySpace c = false := by
  rcases digit_cases h with h|h|h|h|h|h|h|h|h|h <;> subst h <;> decide

theorem digit_lower {c : Char} (h : isDigitChar c = true) :
    lowerChar c = c := by
  rcases digit_cases h with h|h|h|h|h|h|h|h|h|h <;> subst h <;> decide

theorem dropWhile_no_space {l : List Char} (h : ∀ c ∈ l, isPySpace c = false) :
    l.dropWhile isPySpace = l := by
  cases l with
  | nil => rfl
  | cons c cs => simp [List.dropWhile_cons, h c (by simp)]

theorem stripChars_no_space {l : List Char} (h : ∀ c ∈ l, isPySpace c = false) :
    stripChars l = l := by
  unfold stripChars
  rw [dropWhile_no_space h,
      dropWhile_no_space (fun c hc => h c (List.mem_reverse.mp hc)),
      List.reverse_reverse]

theorem toLowerL_fixed {l : List Char} (h : ∀ c ∈ l, lowerChar c = c) :
    toLowerL l = l := by
  induction l with
  | nil => rfl
  | cons c cs ih =>
    simp only [toLowerL, List.map_cons, h c (by simp)]
    have := ih (fun x hx => h x (by simp [hx]))
    simpa [toLowerL] using this

/-- Normalisation (`strip` then `lower`) is a no-op on a digit body followed
by a lowercase non-blank tail. -/
theorem norm_digits_append {ds tail : List Char}
    (h2 : ∀ c ∈ ds, isDigitChar c = true)
    (ht1 : ∀ c ∈ tail, isPySpace c = false)
    (ht2 : ∀ c ∈ tail, lowerChar c = c) :
    toLowerL (stripChars (ds ++ tail)) = ds ++ tail := by
  rw [stripChars_no_space, toLowerL_fixed]
  · intro c hc
    rcases List.mem_append.mp hc with hc | hc
    · exact digit_lower (h2 c hc)
    · exact ht2 c hc
  · intro c hc
    rcases List.mem_append.mp hc with hc | hc
    · exact digit_not_space (h2 c hc)
    · exact ht1 c hc

theorem startsWithL_nil (l : List Char) : startsWithL l [] = true := by
  cases l <;> rfl

theorem startsWithL_append (p q : List Char) : startsWithL (p ++ q) p = true := by
  induction p with
  | nil => simpa using startsWithL_nil q
  | cons c cs ih => simp [startsWithL, ih]

theorem endsWithL_append (l p : List Char) : endsWithL (l ++ p) p = true := by
  unfold endsWithL
  rw [List.reverse_append]
  exact startsWithL_append p.reverse l.reverse

theorem dropRightL_append (l p : List Char) : dropRightL (l ++ p) p.length = l := by
  unfold dropRightL
  rw [List.length_append, Nat.add_sub_cancel, List.take_left]

theorem reverse_digit_head {ds : List Char} (h1 : ds ≠ [])
    (h2 : ∀ c ∈ ds, isDigitChar c = true) :
    ∃ e r, ds.reverse = e :: r ∧ isDigitChar e = true := by
  cases hr : ds.reverse with
  | nil => exact absurd (List.reverse_eq_nil_iff.mp hr) h1
  | cons e r =>
    refine ⟨e, r, rfl, h2 e ?_⟩
    have : e ∈ ds.reverse := by rw [hr]; simp
    exact List.mem_reverse.mp this

theorem pyDigitsRest_all_digits {l : List Char}
    (h : ∀ c ∈ l, isDigitChar c = true) : pyDigitsRest l = true := by
  induction l with
  | nil => rfl
  | cons c cs ih =>
    have hc := h c (List.mem_cons_self c cs)
    have hcs : ∀ x ∈ cs, isDigitChar x = true :=
      fun x hx => h x (List.mem_cons_of_mem c hx)
    have hne : ¬ (c = '_') := digit_ne_of hc (by decide)
    rw [pyDigitsRest.eq_def]
    simp only [if_neg hne, hc, ih hcs, Bool.and_self]

theorem pyDigitsOk_all_digits {l : List Char} (h1 : l ≠ [])
    (h2 : ∀ c ∈ l, isDigitChar c = true) : pyDigitsOk l = true := by
  cases l with
  | nil => exact absurd rfl h1
  | cons c cs =>
    have hcs : ∀ x ∈ cs, isDigitChar x = true :=
      fun x hx => h2 x (List.mem_cons_of_mem c hx)
    simp [pyDigitsOk, h2 c (List.mem_cons_self c cs),
      pyDigitsRest_all_digits hcs]

theorem pyDigitsRest_append_d {l : List Char}
    (h : ∀ c ∈ l, isDigitChar c = true) : pyDigitsRest (l ++ ['d']) = false := by
  induction l with
  | nil => decide
  | cons c cs ih =>
    have hc := h c (List.mem_cons_self c cs)
    have hcs : ∀ x ∈ cs, isDigitChar x = true :=
      fun x hx => h x (List.mem_cons_of_mem c hx)
    have hne : ¬ (c = '_') := digit_ne_of hc (by decide)
    rw [List.cons_append, pyDigitsRest.eq_def]
    simp only [if_neg hne, hc, ih hcs, Bool.and_false]

theorem filter_ne_underscore {l : List Char}
    (h : ∀ c ∈ l, isDigitChar c = true) :
    l.filter (fun c => c != '_') = l := by
  rw [List.filter_eq_self]
  intro c hc
  simpa using digit_ne_of (h c hc) (by decide)

/-- Python `int()` on a plain nonempty digit string. -/
theorem pyParseInt_digits {l : List Char} (h1 : l ≠ [])
    (h2 : ∀ c ∈ l, isDigitChar c = true) :
    pyParseInt ⟨l⟩ = .ok (digitsToNat l) := by
  cases l with
  | nil => exact absurd rfl h1
  | cons c cs =>
    have hc := h2 c (by simp)
    have hplus : ¬ (c = '+') := digit_ne_of hc (by decide)
    have hminus : ¬ (c = '-') := digit_ne_of hc (by decide)
    have hstrip : stripChars (c :: cs) = c :: cs :=
      stripChars_no_space (fun x hx => digit_not_space (h2 x hx))
    have hdata : (⟨c :: cs⟩ : String).data = c :: cs := rfl
    simp only [pyParseInt, hdata, hstrip, hplus, hminus, if_false]
    rw [if_pos (pyDigitsOk_all_digits (by simp) h2)]
    rw [filter_ne_underscore h2]
    simp

theorem endsWithL_single (l : List Char) (x y : Char) :
    endsWithL (l ++ [x]) [y] = (x == y) := by
  unfold endsWithL
  rw [List.reverse_append]
  simp [startsWithL, startsWithL_nil]

theorem endsWithL_single_ms (l : List Char) (x : Char) (hx : ¬ (x = 's')) :
    endsWithL (l ++ [x]) ['m', 's'] = false := by
  unfold endsWithL
  rw [List.reverse_append]
  simp [startsWithL, hx]

theorem endsWithL_digits_single {ds : List Char} (h1 : ds ≠ [])
    (h2 : ∀ c ∈ ds, isDigitChar c = true) (y : Char)
    (hy : isDigitChar y = false) :
    endsWithL ds [y] = false := by
  obtain ⟨e, r, hr, he⟩ := reverse_digit_head h1 h2
  unfold endsWithL
  rw [hr]
  simp [startsWithL, digit_ne_of he hy]

theorem endsWithL_digits_ms {ds : List Char} (h1 : ds ≠ [])
    (h2 : ∀ c ∈ ds, isDigitChar c = true) :
    endsWithL ds ['m', 's'] = false := by
  obtain ⟨e, r, hr, he⟩ := reverse_digit_head h1 h2
  unfold endsWithL
  rw [hr]
  simp [startsWithL, digit_ne_of he (by decide : isDigitChar 's' = false)]

theorem endsWithL_digits_s_ms {ds : List Char} (h1 : ds ≠ [])
    (h2 : ∀ c ∈ ds, isDigitChar c = true) :
    endsWithL (ds ++ ['s']) ['m', 's'] = false := by
  obtain ⟨e, r, hr, he⟩ := reverse_digit_head h1 h2
  unfold endsWithL
  rw [List.reverse_append]
  simp [startsWithL, hr, digit_ne_of he (by decide : isDigitChar 'm' = false),
    startsWithL_nil]

/-- Python `int()` fails when the stripped text starts with an unsigned
character and the digit grammar rejects it. -/
theorem pyParseInt_bad {s : String} {c : Char} {rest : List Char}
    (hs : stripChars s.data = c :: rest)
    (hplus : ¬ (c = '+')) (hminus : ¬ (c = '-'))
    (hok : pyDigitsOk (c :: rest) = false) :
    pyParseInt s = .error ("invalid literal for int() with base 10: " ++ s) := by
  unfold pyParseInt
  rw [hs]
  simp only [if_neg hplus, if_neg hminus, hok]
  simp

/-- Python `int()` rejects a digit body followed by the letter `d`. -/
theorem pyParseInt_digits_d {l : List Char} (h1 : l ≠ [])
    (h2 : ∀ c ∈ l, isDigitChar c = true) :
    pyParseInt ⟨l ++ ['d']⟩
      = .error ("invalid literal for int() with base 10: " ++ ⟨l ++ ['d']⟩) := by
  cases l with
  | nil => exact absurd rfl h1
  | cons c cs =>
    have hc := h2 c (List.mem_cons_self c cs)
    have hcs : ∀ x ∈ cs, isDigitChar x = true :=
      fun x hx => h2 x (List.mem_cons_of_mem c hx)
    have hplus : ¬ (c = '+') := digit_ne_of hc (by decide)
    have hminus : ¬ (c = '-') := digit_ne_of hc (by decide)
    have hstrip : stripChars (c :: (cs ++ ['d'])) = c :: (cs ++ ['d']) := by
      apply stripChars_no_space
      intro x hx
      rcases List.mem_cons.mp hx with hx | hx
      · subst hx; exact digit_not_space hc
      · rcases List.mem_append.mp hx with hx | hx
        · exact digit_not_space (hcs x hx)
        · simp at hx; subst hx; decide
    have hok : pyDigitsOk (c :: (cs ++ ['d'])) = false := by
      rw [pyDigitsOk.eq_def]
      simp [hc, pyDigitsRest_append_d hcs]
    refine pyParseInt_bad ?_ hplus hminus hok
    rw [show (⟨(c :: cs) ++ ['d']⟩ : String).data = (c :: cs) ++ ['d'] from rfl,
        List.cons_append]
    exact hstrip

/-! ### Claim C1 — duration parsing -/

/-- C1 (counterexample): the claim says `"1500ms"` yields 2 (ceiling with
minimum 1); the code computes `max(1, int(1500 / 1000)) = 1` — `int()`
truncates, it does not take a ceiling. -/
theorem C1_ms_ceiling_counterexample :
    parse_duration_to_seconds "1500ms" = .ok 1
  ∧ parse_duration_to_seconds "1500ms" ≠ .ok 2 := by
  constructor
  · decide
  · decide

theorem norm_digits_tail_ms {ds : List Char}
    (h2 : ∀ c ∈ ds, isDigitChar c = true) (tail : List Char)
    (ht1 : ∀ c ∈ tail, isPySpace c = false)
    (ht2 : ∀ c ∈ tail, lowerChar c = c) :
    toLowerL (stripChars ((⟨ds ++ tail⟩ : String).data)) = ds ++ tail :=
  norm_digits_append h2 ht1 ht2

/-- C1 (amended): `ms` is converted to seconds by division by 1000
truncated toward zero, with a minimum result of 1 (so `"1500ms"` yields 1,
not 2); bare integers and the `s`/`m`/`h` suffixes are as the claim says,
and an unknown suffix or non-numeric body is a format error. -/
theorem C1_duration_branches (ds : List Char) (h1 : ds ≠ [])
    (h2 : ∀ c ∈ ds, isDigitChar c = true) :
    parse_duration_to_seconds ⟨ds ++ ['m', 's']⟩
        = .ok (max 1 (Int.tdiv (digitsToNat ds) 1000))
  ∧ parse_duration_to_seconds ⟨ds ++ ['s']⟩ = .ok (digitsToNat ds)
  ∧ parse_duration_to_seconds ⟨ds ++ ['m']⟩ = .ok ((digitsToNat ds : Int) * 60)
  ∧ parse_duration_to_seconds ⟨ds ++ ['h']⟩ = .ok ((digitsToNat ds : Int) * 3600)
  ∧ parse_duration_to_seconds ⟨ds⟩ = .ok (digitsToNat ds)
  ∧ (∃ e, parse_duration_to_seconds ⟨ds ++ ['d']⟩ = .error e)
  ∧ (∃ e, parse_duration_to_seconds "x7s" = .error e) := by
  have hpi : pyParseInt ⟨ds⟩ = .ok (digitsToNat ds) := pyParseInt_digits h1 h2
  refine ⟨?_, ?_, ?_, ?_, ?_, ?_,
    ⟨"invalid literal for int() with base 10: x7", by decide⟩⟩
  · -- "…ms"
    have hnorm := norm_digits_tail_ms h2 ['m', 's'] (by decide) (by decide)
    have hdrop : dropRightL (ds ++ ['m', 's']) 2 = ds := by
      simpa using dropRightL_append ds ['m', 's']
    simp only [parse_duration_to_seconds, hnorm, endsWithL_append, if_true, hdrop, hpi,
      Except.map]
  · -- "…s"
    have hnorm := norm_digits_tail_ms h2 ['s'] (by decide) (by decide)
    have hdrop : dropRightL (ds ++ ['s']) 1 = ds := by
      simpa using dropRightL_append ds ['s']
    simp only [parse_duration_to_seconds, hnorm, endsWithL_digits_s_ms h1 h2,
      endsWithL_append, if_false, if_true, hdrop, hpi]
    simp
  · -- "…m"
    have hnorm := norm_digits_tail_ms h2 ['m'] (by decide) (by decide)
    have hdrop : dropRightL (ds ++ ['m']) 1 = ds := by
      simpa using dropRightL_append ds ['m']
    simp only [parse_duration_to_seconds, hnorm,
      endsWithL_single_ms ds 'm' (by decide),
      endsWithL_single ds 'm' 's', endsWithL_single ds 'm' 'm',
      if_false, if_true, hdrop, hpi, Except.map]
    norm_num
    intro hms
    exact absurd hms (by decide)
  · -- "…h"
    have hnorm := norm_digits_tail_ms h2 ['h'] (by decide) (by decide)
    have hdrop : dropRightL (ds ++ ['h']) 1 = ds := by
      simpa using dropRightL_append ds ['h']
    simp only [parse_duration_to_seconds, hnorm,
      endsWithL_single_ms ds 'h' (by decide),
      endsWithL_single ds 'h' 's', endsWithL_single ds 'h' 'm',
      endsWithL_single ds 'h' 'h',
      if_false, if_true, hdrop, hpi, Except.map]
    norm_num
    rw [if_neg (by decide : ¬ ('h' = 's')), if_neg (by decide : ¬ ('h' = 'm'))]
  · -- bare digits
    have hnorm : toLowerL (stripChars ((⟨ds⟩ : String).data)) = ds := by
      have := @norm_digits_append ds [] h2 (by simp) (by simp)
      simpa using this
    simp only [parse_duration_to_seconds, hnorm,
      endsWithL_digits_ms h1 h2,
      endsWithL_digits_single h1 h2 's' (by decide),
      endsWithL_digits_single h1 h2 'm' (by decide),
      endsWithL_digits_single h1 h2 'h' (by decide),
      if_false, hpi]
    simp
  · -- unknown suffix "…d" is a format error
    have hnorm := norm_digits_tail_ms h2 ['d'] (by decide) (by decide)
    refine ⟨"invalid literal for int() with base 10: " ++ ⟨ds ++ ['d']⟩, ?_⟩
    simp only [parse_duration_to_seconds, hnorm,
      endsWithL_single_ms ds 'd' (by decide),
      endsWithL_single ds 'd' 's', endsWithL_single ds 'd' 'm',
      endsWithL_single ds 'd' 'h', if_false]
    norm_num
    rw [if_neg (by decide : ¬ ('d' = 's')), if_neg (by decide : ¬ ('d' = 'm')),
        if_neg (by decide : ¬ ('d' = 'h'))]
    exact pyParseInt_digits_d h1 h2

/-- Witness for C1: the branch theorem instantiated at the digits `1500`,
and the `ms` result evaluated: `"1500ms"` gives 1 second. -/
theorem C1_duration_branches_witness :
    parse_duration_to_seconds ⟨['1', '5', '0', '0'] ++ ['m', 's']⟩
        = .ok (max 1 (Int.tdiv (digitsToNat ['1', '5', '0', '0']) 1000))
  ∧ max 1 (Int.tdiv (digitsToNat ['1', '5', '0', '0']) 1000) = 1 :=
  ⟨(C1_duration_branches ['1', '5', '0', '0'] (by decide) (by decide)).1, by decide⟩

/-! ### Claim C2 — subtree search on cyclic input -/

/-- A malformed node map with a self-cycle: node `a` lists itself as its own
child and carries no pod identity. -/
def cycNodes : NodeMap := [("a", { children := some ["a"] })]

/-- On the cyclic map, every recursion-depth budget is exhausted. -/
theorem find_cyc_none :
    ∀ fuel, findPodnameInSubtree cycNodes "wf" fuel "a" = none := by
  intro fuel
  induction fuel with
  | zero => rfl
  | succ n ih =>
    have hstep : findPodnameInSubtree cycNodes "wf" (n + 1) "a"
        = findPodnameInSubtree cycNodes "wf" n "a" := rfl
    rw [hstep, ih]

/-- C2 (counterexample): the subtree search does **not** track visited node
identifiers — on a node map with a cycle among children links it never
returns, at any recursion depth (in Python: unbounded recursion until
`RecursionError`). -/
theorem C2_cycle_termination_counterexample :
    ¬ FindTerminates cycNodes "wf" "a" :=
  fun ⟨fuel, h⟩ => h (find_cyc_none fuel)

/-- C2 (amended): `_find_podname_in_subtree` keeps no visited set; on a node
map containing a cycle among children links reachable from the start node
(with no pod identity found before the cycle), the search exhausts every
recursion-depth budget instead of terminating. -/
theorem C2_no_visited_tracking :
    ∀ fuel, findPodnameInSubtree cycNodes "wf" fuel "a" = none :=
  find_cyc_none

/-! ### Claim C3 — timeout error message -/

/-- C3 (counterexample): with every poll observing phase `Running` and a 4s
deadline, `wait_workflow` raises a timeout error that carries the target
identity (`argo`, `wf`) but **not** the last observed phase `Running`. -/
theorem C3_timeout_message_counterexample :
    wait_workflow (fun _ => some "Running") "argo" "wf" 4
      = .error "Workflow argo/wf did not finish within 4s"
  ∧ strContains "Workflow argo/wf did not finish within 4s" "Running" = false
  ∧ strContains "Workflow argo/wf did not finish within 4s" "argo" = true
  ∧ strContains "Workflow argo/wf did not finish within 4s" "wf" = true := by
  exact ⟨by decide, by decide, by decide, by decide⟩

/-- C3 (amended): on deadline expiry `wait_workflow` raises a timeout error
whose message carries the target workflow identity (namespace and name) and
the timeout duration — but not the last observed phase. -/
theorem C3_timeout_message_amended (getPhase : Nat → Option String)
    (ns name : String) (timeoutSeconds : Nat) (m : String)
    (h : wait_workflow getPhase ns name timeoutSeconds = .error m) :
    m = "Workflow " ++ ns ++ "/" ++ name ++ " did not finish within "
        ++ toString timeoutSeconds ++ "s" := by
  unfold wait_workflow at h
  split at h
  · simp at h
  · exact (Except.error.inj h).symm

theorem C3_timeout_message_witness :
    "Workflow argo/wf did not finish within 4s"
      = "Workflow " ++ "argo" ++ "/" ++ "wf" ++ " did not finish within "
        ++ toString (4 : Nat) ++ "s" :=
  C3_timeout_message_amended (fun _ => some "Running") "argo" "wf" 4
    "Workflow argo/wf did not finish within 4s" (by decide)

/-! ### Claim C4 — log aggregation ordering -/

/-- A log fetcher that always succeeds with empty text. -/
def okFetch : String → Except String String := fun _ => .ok ""

/-- C4 (counterexample): the `main`-first reordering is applied to the init
containers too; with init containers declared `["setup", "main"]` the first
emitted section is `main`, not the declared order the claim requires. -/
theorem C4_init_reorder_counterexample :
    readPodLogsChunks okFetch ["setup", "main"] []
      = [" --- initContainer: main --- ", " --- initContainer: setup --- "]
  ∧ readPodLogsChunks okFetch ["setup", "main"] []
      ≠ ["setup", "main"].map
          (fun cname => " --- initContainer: " ++ cname ++ " --- ") := by
  exact ⟨by decide, by decide⟩

/-- C4 (amended): init-container sections come first, then regular-container
sections, but the same `main`-first reordering is applied to **both** lists:
a container literally named `main` is moved to the front of its own list
while the relative order of all other containers is unchanged (so init
containers keep their declared order only when none of them is named
`main`); regular containers `["wait","main","sidecar"]` yield section order
`main`, `wait`, `sidecar`. -/
theorem C4_log_sections_amended (fetchLog : String → Except String String)
    (init_containers containers names : List String) :
    readPodLogsChunks fetchLog init_containers containers
      = (orderMainFirst init_containers).map (fun cname =>
          " --- initContainer: " ++ cname ++ " --- " ++ fetchedLog fetchLog "init " cname)
        ++ (orderMainFirst containers).map (fun cname =>
          " --- container: " ++ cname ++ " --- " ++ fetchedLog fetchLog "" cname)
  ∧ ("main" ∈ names → (orderMainFirst names).head? = some "main")
  ∧ (orderMainFirst names).filter (fun n => n != "main")
      = names.filter (fun n => n != "main")
  ∧ ("main" ∉ names → orderMainFirst names = names)
  ∧ orderMainFirst ["wait", "main", "sidecar"] = ["main", "wait", "sidecar"] := by
  refine ⟨rfl, ?_, ?_, ?_, by decide⟩
  · intro h
    simp [orderMainFirst, h]
  · by_cases h : "main" ∈ names
    · simp [orderMainFirst, h, List.filter_filter]
    · simp [orderMainFirst, h]
  · intro h
    simp [orderMainFirst, h]

theorem C4_log_sections_witness :
    (orderMainFirst ["wait", "main", "sidecar"]).head? = some "main"
  ∧ orderMainFirst ["wait", "sidecar"] = ["wait", "sidecar"] :=
  ⟨(C4_log_sections_amended okFetch [] [] ["wait", "main", "sidecar"]).2.1
      (by decide),
   (C4_log_sections_amended okFetch [] [] ["wait", "sidecar"]).2.2.2.1
      (by decide)⟩

/-! ### Claim C5 — pod-name reconstruction -/

theorem strStartsWith_append (p s : String) : strStartsWith (p ++ s) p = true := by
  unfold strStartsWith
  rw [String.data_append]
  exact startsWithL_append p.data s.data

theorem strDrop_append (p s : String) : strDrop (p ++ s) p.length = s := by
  unfold strDrop
  rw [String.data_append, show p.length = p.data.length from rfl, List.drop_left]

/-- C5: a node with no truthy explicit pod identity, type `Pod` and a truthy
template name, whose identifier is the workflow name, a dash and a nonempty
suffix, resolves to `{workflowName}-{templateName}-{suffix}`. -/
theorem C5_derived_pod_name (nodes : NodeMap)
    (node_id wf_name suffix tmpl : String) (n : NodeRec)
    (hlook : lookupNode nodes node_id = some n)
    (hpod : truthy n.podName = none)
    (htype : n.type = some "Pod")
    (htmpl : truthy n.templateName = some tmpl)
    (hid : node_id = wf_name ++ "-" ++ suffix)
    (hsuf : suffix ≠ "") :
    podNameFromNode nodes node_id wf_name
      = some (wf_name ++ "-" ++ tmpl ++ "-" ++ suffix) := by
  unfold podNameFromNode
  rw [hlook]
  simp only [Option.getD_some, hpod, htype]
  unfold derivePodNameFromPodNode
  rw [htmpl, hid]
  simp only [beq_self_eq_true, if_true,
    strStartsWith_append (wf_name ++ "-") suffix,
    strDrop_append (wf_name ++ "-") suffix, if_neg hsuf]

theorem C5_derived_pod_name_witness :
    podNameFromNode
      [("wf-abc", { displayName := some "step1", type := some "Pod",
                    templateName := some "run", children := some [] })]
      "wf-abc" "wf"
      = some ("wf" ++ "-" ++ "run" ++ "-" ++ "abc") :=
  C5_derived_pod_name _ "wf-abc" "wf" "abc" "run"
    { displayName := some "step1", type := some "Pod",
      templateName := some "run", children := some [] }
    (by decide) (by decide) rfl (by decide) (by decide) (by decide)

/-! ### Claim C6 — node phase check over duplicate display names -/

/-- C6: when an entry declares a required phase (and no log check), the
evaluator passes the phase check iff at least one status node sharing the
selected displayName has exactly that phase. -/
theorem C6_phase_any_node (core : CoreV1Api) (nodes : NodeMap)
    (wf_name wf_ns : String) (fuel : Nat) (n : NodeExpect) (dn p : String)
    (hdn : entryDisplayName n = some dn)
    (hfound : (byDisplay nodes dn).isEmpty = false)
    (hp : truthy n.phase = some p)
    (hlogs : pyList ((n.logs.getD {}).contains) = []) :
    (checkNodeEntry core nodes wf_name wf_ns fuel n = some (.ok ())
      ↔ ∃ x ∈ byDisplay nodes dn, x.phase = some p) := by
  unfold checkNodeEntry
  rw [hdn]
  simp only [hfound, Bool.false_eq_true, if_false, hp]
  unfold checkNodeEntryLogs
  rw [hlogs]
  simp only [List.isEmpty_nil, if_true]
  by_cases hmem : some p ∈ (byDisplay nodes dn).map (fun x => x.phase)
  · rw [if_pos hmem]
    rw [List.mem_map] at hmem
    exact ⟨fun _ => hmem, fun _ => rfl⟩
  · rw [if_neg hmem]
    constructor
    · intro h
      simp at h
    · intro he
      exact absurd (List.mem_map.mpr he) hmem

theorem C6_phase_any_node_witness :
    checkNodeEntry ⟨fun _ _ => .error "stub", fun _ _ _ => .error "stub"⟩
      [("n1", { displayName := some "retry-step", phase := some "Failed" }),
       ("n2", { displayName := some "retry-step", phase := some "Succeeded" })]
      "wf" "argo" 0
      { selector := some { displayName := some "retry-step" },
        phase := some "Succeeded" }
      = some (.ok ()) :=
  (C6_phase_any_node ⟨fun _ _ => .error "stub", fun _ _ _ => .error "stub"⟩
      [("n1", { displayName := some "retry-step", phase := some "Failed" }),
       ("n2", { displayName := some "retry-step", phase := some "Succeeded" })]
      "wf" "argo" 0
      { selector := some { displayName := some "retry-step" },
        phase := some "Succeeded" }
      "retry-step" "Succeeded"
      (by decide) (by decide) (by decide) (by decide)).mpr
    ⟨{ displayName := some "retry-step", phase := some "Succeeded" },
      by decide, by decide⟩

/-! ### Claim C7 — exactly one workflow source -/

/-- C7: given a well-formed rest of the document (a name and a parsable
timeout), the loader accepts a scenario iff exactly one workflow source is
given — a non-null `workflow`, or a truthy (non-null, nonempty) 
`workflowFile` — and otherwise raises the validation error naming the
scenario path. -/
theorem C7_exactly_one_source (path : String) (data : ScenarioData)
    (nm : String) (t : Int)
    (hname : data.name = some nm)
    (htime : parse_duration_to_seconds (data.timeout.getD "10m") = .ok t) :
    ((∃ sc, parseScenario path data = .ok sc)
      ↔ data.workflow.isSome ≠ (truthy data.workflowFile).isSome)
  ∧ (data.workflow.isSome = (truthy data.workflowFile).isSome →
      parseScenario path data
        = .error (path ++ ": define exactly one of workflow OR workflowFile")) := by
  cases hw : data.workflow with
  | none =>
    cases hf : truthy data.workflowFile with
    | none => simp [parseScenario, hw, hf, hname, htime]
    | some raw => simp [parseScenario, hw, hf, hname, htime]
  | some m =>
    cases hf : truthy data.workflowFile with
    | none => simp [parseScenario, hw, hf, hname, htime]
    | some raw => simp [parseScenario, hw, hf, hname, htime]

theorem C7_exactly_one_source_witness :
    ∃ sc, parseScenario "p.yaml"
        { name := some "t", workflow := some ⟨"manifest"⟩ } = .ok sc :=
  (C7_exactly_one_source "p.yaml"
      { name := some "t", workflow := some ⟨"manifest"⟩ }
      "t" 600 (by decide) (by decide)).1.mpr (by decide)

/-! ### Claim C8 — runner boundary and exit code -/

theorem mainTally_snd_zero_iff (runOne : TestScenario → Except String String) :
    ∀ (scenarios : List TestScenario) (p f : Nat),
      ((scenarios.foldl
          (fun pf s =>
            match runOne s with
            | .ok _ => (pf.1 + 1, pf.2)
            | .error _ => (pf.1, pf.2 + 1))
          (p, f)).2 = 0
        ↔ (f = 0 ∧ ∀ s ∈ scenarios, ∃ w, runOne s = .ok w)) := by
  intro scenarios
  induction scenarios with
  | nil => simp
  | cons s rest ih =>
    intro p f
    rw [List.foldl_cons]
    cases hr : runOne s with
    | ok w =>
      simp only [hr]
      rw [ih (p + 1) f]
      simp only [List.mem_cons]
      constructor
      · rintro ⟨hf, hall⟩
        exact ⟨hf, fun x hx => hx.elim (fun he => he ▸ ⟨w, hr⟩) (hall x)⟩
      · rintro ⟨hf, hall⟩
        exact ⟨hf, fun x hx => hall x (Or.inr hx)⟩
    | error e =>
      simp only [hr]
      rw [ih p (f + 1)]
      constructor
      · rintro ⟨hf, _⟩
        exact absurd hf (Nat.succ_ne_zero f)
      · rintro ⟨_, hall⟩
        obtain ⟨w, hw⟩ := hall s (List.mem_cons_self s rest)
        rw [hw] at hr
        cases hr

/-- C8: every per-scenario error is absorbed at the runner boundary into a
failed result line carrying the error message, the loop emits one result per
scenario (it never aborts early), and — when at least one scenario was
selected — the process exit code is 0 iff every scenario passed (and 1,
nonzero, otherwise). -/
theorem C8_runner_boundary (runOne : TestScenario → Except String String)
    (scenarios : List TestScenario) (hne : scenarios ≠ []) :
    (mainLines runOne scenarios).length = scenarios.length
  ∧ (∀ s e, runOne s = .error e →
      scenarioLine runOne s = "❌ FAILED: " ++ s.path ++ ": " ++ e)
  ∧ (mainExitCode runOne scenarios = 0
      ↔ ∀ s ∈ scenarios, ∃ w, runOne s = .ok w) := by
  refine ⟨by simp [mainLines], ?_, ?_⟩
  · intro s e hr
    unfold scenarioLine
    rw [hr]
  · unfold mainExitCode
    rw [if_neg (by simpa using hne)]
    have key := mainTally_snd_zero_iff runOne scenarios 0 0
    unfold mainTally
    split_ifs with hz
    · constructor
      · intro h; cases h
      · intro hall
        exact absurd (key.mpr ⟨rfl, hall⟩) hz
    · push_neg at hz
      exact ⟨fun _ => (key.mp hz).2, fun _ => rfl⟩

theorem C8_runner_boundary_witness :
    mainExitCode (fun _ => .ok "wf-1")
      [{ path := "t.yaml", name := "t", description := "", tags := [],
         timeout_seconds := 600, ns := "argo", expect := {},
         workflow_inline := some ⟨"m"⟩, workflow_file := none }] = 0 :=
  (C8_runner_boundary (fun _ => .ok "wf-1")
      [{ path := "t.yaml", name := "t", description := "", tags := [],
         timeout_seconds := 600, ns := "argo", expect := {},
         workflow_inline := some ⟨"m"⟩, workflow_file := none }]
      (by simp)).2.2.mpr (fun _ _ => ⟨"wf-1", rfl⟩)

/-! ### Claim C9 — displayName selector fallback -/

theorem truthy_some_ne_empty {o : Option String} {d : String}
    (h : truthy o = some d) : d ≠ "" := by
  cases o with
  | none => cases h
  | some s =>
    rw [show truthy (some s) = if s = "" then none else some s from rfl] at h
    by_cases hs : s = ""
    · rw [if_pos hs] at h; cases h
    · rw [if_neg hs] at h
      injection h with h
      subst h
      exact hs

/-- C9: an entry whose selector object is absent or lacks a truthy
displayName still uses a truthy top-level `displayName` field as the
selector (the check behaves exactly as if that name had been given through
`selector.displayName`); an entry with neither fails with the error stating
the missing field. -/
theorem C9_displayName_fallback (core : CoreV1Api) (nodes : NodeMap)
    (wf_name wf_ns : String) (fuel : Nat) :
    (∀ (n : NodeExpect) (d : String),
        truthy ((n.selector.getD {}).displayName) = none →
        truthy n.displayName = some d →
        entryDisplayName n = some d
        ∧ checkNodeEntry core nodes wf_name wf_ns fuel n
            = checkNodeEntry core nodes wf_name wf_ns fuel
                { n with selector := some { displayName := some d } })
  ∧ (∀ n : NodeExpect,
        truthy ((n.selector.getD {}).displayName) = none →
        truthy n.displayName = none →
        checkNodeEntry core nodes wf_name wf_ns fuel n
          = some (.error
              "Node expect entry missing displayName (use nodes[].selector.displayName)")) := by
  constructor
  · intro n d h1 h2
    have hd : entryDisplayName n = some d := by
      unfold entryDisplayName
      rw [h1]
      exact h2
    have hd' : entryDisplayName
        { n with selector := some { displayName := some d } } = some d := by
      unfold entryDisplayName
      simp [truthy, truthy_some_ne_empty h2]
    refine ⟨hd, ?_⟩
    unfold checkNodeEntry
    rw [hd, hd']
    rfl
  · intro n h1 h2
    have hd : entryDisplayName n = none := by
      unfold entryDisplayName
      rw [h1]
      exact h2
    unfold checkNodeEntry
    rw [hd]

theorem C9_displayName_fallback_witness :
    checkNodeEntry ⟨fun _ _ => .error "stub", fun _ _ _ => .error "stub"⟩
      [] "wf" "argo" 0 ({} : NodeExpect)
      = some (.error
          "Node expect entry missing displayName (use nodes[].selector.displayName)") :=
  (C9_displayName_fallback ⟨fun _ _ => .error "stub", fun _ _ _ => .error "stub"⟩
      [] "wf" "argo" 0).2 {} (by decide) (by decide)

/-! ### Claim C10 — reconstruction never raises; error only after exhaustion -/

theorem resolveLoop_none_forall (nodes : NodeMap) (wf_name : String)
    (fuel : Nat) :
    ∀ ids, resolveLoop nodes wf_name fuel ids = some none →
      ∀ nid ∈ ids,
        ∃ r, findPodnameInSubtree nodes wf_name fuel nid = some r
          ∧ truthy r = none := by
  intro ids
  induction ids with
  | nil =>
    intro _ nid hmem
    cases hmem
  | cons a rest ih =>
    intro hloop nid hmem
    unfold resolveLoop at hloop
    cases hf : findPodnameInSubtree nodes wf_name fuel a with
    | none => simp [hf] at hloop
    | some r =>
      cases ht : truthy r with
      | some pod => simp [hf, ht] at hloop
      | none =>
        simp only [hf, ht] at hloop
        rcases List.mem_cons.mp hmem with hmm | hmm
        · subst hmm
          exact ⟨r, hf, ht⟩
        · exact ih hloop nid hmm

/-- C10: (a) when its preconditions fail (no truthy template name, the node
id does not start with `{workflowName}-`, or the remaining suffix is empty)
the reconstruction yields no identity instead of raising; (b) when the
direct lookup yields nothing the depth-first search continues into the
node\x27s children; (c) `resolve_pod_name` returns an error only after every
candidate root\x27s subtree search returned without a truthy pod name. -/
theorem C10_reconstruction_total (nodes : NodeMap)
    (node_id wf_name child dn msg : String) (fuel : Nat)
    (tmpl : Option String) :
    ((truthy tmpl = none
        ∨ strStartsWith node_id (wf_name ++ "-") = false
        ∨ strDrop node_id (wf_name ++ "-").length = "") →
      derivePodNameFromPodNode node_id wf_name tmpl = none)
  ∧ (truthy (podNameFromNode nodes node_id wf_name) = none →
      pyList ((lookupNode nodes node_id).getD emptyNode).children = [child] →
      findPodnameInSubtree nodes wf_name (fuel + 1) node_id
        = findPodnameInSubtree nodes wf_name fuel child)
  ∧ (nodesWithDisplayName nodes dn ≠ [] →
      resolve_pod_name nodes wf_name dn fuel = some (.error msg) →
      ∀ nid ∈ nodesWithDisplayName nodes dn,
        ∃ r, findPodnameInSubtree nodes wf_name fuel nid = some r
          ∧ truthy r = none) := by
  refine ⟨?_, ?_, ?_⟩
  · intro h
    unfold derivePodNameFromPodNode
    cases htm : truthy tmpl with
    | none => rfl
    | some t =>
      rcases h with h | h | h
      · rw [htm] at h
        cases h
      · simp [h]
      · show (if strStartsWith node_id (wf_name ++ "-") = true then
                if strDrop node_id (wf_name ++ "-").length = "" then none
                else some (wf_name ++ "-" ++ t ++ "-"
                            ++ strDrop node_id (wf_name ++ "-").length)
              else none) = none
        rw [h, if_pos rfl]
        simp
  · intro h1 h2
    have hstep : findPodnameInSubtree nodes wf_name (fuel + 1) node_id
        = match truthy (podNameFromNode nodes node_id wf_name) with
          | some direct => some (some direct)
          | none =>
            (pyList ((lookupNode nodes node_id).getD emptyNode).children).foldl
              (fun acc child_id =>
                match acc with
                | none => none
                | some (some found) => some (some found)
                | some none => findPodnameInSubtree nodes wf_name fuel child_id)
              (some none) := rfl
    rw [hstep, h1, h2]
    rfl
  · intro hne hresolve nid hmem
    have hie : (nodesWithDisplayName nodes dn).isEmpty = false := by
      cases hl : nodesWithDisplayName nodes dn with
      | nil => exact absurd hl hne
      | cons a l => rfl
    unfold resolve_pod_name at hresolve
    simp only [hie, Bool.false_eq_true, if_false] at hresolve
    cases hrl : resolveLoop nodes wf_name fuel (nodesWithDisplayName nodes dn) with
    | none => simp [hrl] at hresolve
    | some r =>
      cases r with
      | some pod => simp [hrl] at hresolve
      | none => exact resolveLoop_none_forall nodes wf_name fuel _ hrl nid hmem

theorem C10_reconstruction_total_witness :
    derivePodNameFromPodNode "xyz" "wf" (some "run") = none :=
  (C10_reconstruction_total [] "xyz" "wf" "c" "d" "m" 0 (some "run")).1
    (Or.inr (Or.inl (by decide)))
